import Mathlib

/-!
Verification development for the 4d-paper storage core: the fingerprint
index (data_deduplication.py), the encrypted 4D object store
(four_d_data_handler.py), the paper version model (paper_model.py), the
temporal index (timeseries_db.py) and the deduplication scheduler
(deduplication_scheduler.py), shallowly embedded in Lean.

Modelling conventions:
* Python values reaching calculate_data_hash are embedded as `PyValue`
  (pandas DataFrames column-major with the default positional RangeIndex,
  numpy arrays already flattened, dicts as association lists with string
  keys, plus string and integer scalars).
* SHA-256 is modelled by the injective tag `sha256Hex`; every claim in
  scope depends only on equality patterns of digests, which injectivity
  preserves (collision freeness of the real digest is assumed).
* Fernet authenticated encryption is modelled as a pairing of plaintext
  with the key; decryption checks the key and fails otherwise, matching
  the authenticated-encryption semantics of encryption.py.
* datetime values are embedded as their isoformat strings (PyDatetime)
  where only identity matters, and as Nat (chronologically ordered
  encodings of the strftime components) in the temporal index, where
  range comparison matters; isoformat string order agrees with
  chronological order for the four-digit-year keys the code writes.
-/

namespace FourDPaper

/-- Decidable equality of Except values, used to evaluate the embedded
fallible operations on concrete inputs. -/
instance {ε α : Type} [DecidableEq ε] [DecidableEq α] : DecidableEq (Except ε α) :=
  fun x y =>
    match x, y with
    | .ok a, .ok b =>
        if h : a = b then .isTrue (by rw [h])
        else .isFalse (fun hh => h (by injection hh))
    | .ok _, .error _ => .isFalse (fun hh => Except.noConfusion hh)
    | .error _, .ok _ => .isFalse (fun hh => Except.noConfusion hh)
    | .error a, .error b =>
        if h : a = b then .isTrue (by rw [h])
        else .isFalse (fun hh => h (by injection hh))

/-- String order decided through the underlying character list, which
the kernel can evaluate (the iterator-based instance of the library does
not reduce). -/
instance (priority := 2000) decidableStringLe : DecidableRel (fun a b : String => a ≤ b) :=
  fun a b => decidable_of_iff (a.toList ≤ b.toList) String.le_iff_toList_le.symm

/-- Hex digit character for a value below 16 (lowercase, as bytes.hex). -/
def hexDigitChar (n : Nat) : Char :=
  if n < 10 then Char.ofNat (48 + n) else Char.ofNat (87 + n)

/-- Two-digit lowercase hex encoding of one byte. -/
def byteHex (b : Nat) : String :=
  String.mk [hexDigitChar (b / 16 % 16), hexDigitChar (b % 16)]

/-- Little-endian 8-byte hex encoding of one int64 array element, as
numpy tostring().hex() produces for the default int64 dtype on Linux. -/
def int64LEHex (n : Int) : String :=
  let u : Nat := (n.emod (2 ^ 64)).toNat
  String.join ((List.range 8).map (fun i => byteHex (u / 2 ^ (8 * i) % 256)))

/-- SHA-256 hex digest of a string, modelled as an injective tag of the
input. All claims in this development depend only on equality patterns of
digests, which injectivity preserves. -/
def sha256Hex (s : String) : String := "sha256:" ++ s

/-- A scalar cell value: Python int or str. -/
inductive PyScalar
  | int (n : Int)
  | str (s : String)
deriving DecidableEq, Repr

/-- CSV rendering of a cell, as pandas to_csv writes it (ints bare,
plain strings unquoted). -/
def PyScalar.csvString : PyScalar → String
  | .int n => toString n
  | .str s => s

/-- Rendering of a cell inside str() of a numpy object array
(strings are shown quoted, ints bare). -/
def PyScalar.npString : PyScalar → String
  | .int n => toString n
  | .str s => "\x27" ++ s ++ "\x27"

/-- Whether a scalar is a Python int. -/
def PyScalar.isInt : PyScalar → Bool
  | .int _ => true
  | .str _ => false

/-- Whether a scalar is a Python str. -/
def PyScalar.isStr : PyScalar → Bool
  | .int _ => false
  | .str _ => true

/-- A numpy array as calculate_data_hash sees it after flatten():
either a purely numeric (int64) array or an object (heterogeneous)
array. -/
inductive NpArray
  | numeric (elems : List Int)
  | object (elems : List PyScalar)
deriving DecidableEq, Repr

/-- np.sort on a flattened object array: total on homogeneous arrays,
raises TypeError when elements of different types are compared (Python 3
refuses int/str comparison). The exact TypeError text is modelled by a
fixed message. -/
def npSortObject (l : List PyScalar) : Except String (List PyScalar) :=
  if l.all PyScalar.isInt then
    .ok (((l.filterMap (fun x => match x with | .int n => some n | .str _ => none)).insertionSort
      (fun a b => a ≤ b)).map PyScalar.int)
  else if l.all PyScalar.isStr then
    .ok (((l.filterMap (fun x => match x with | .str s => some s | .int _ => none)).insertionSort
      (fun a b => a ≤ b)).map PyScalar.str)
  else
    .error "TypeError: unorderable types in object array sort"

/-- Canonical serialization of a numpy array, mirroring lines 70-83 of
data_deduplication.py: empty arrays map to the fixed string, object
arrays to str() of the sorted array, numeric arrays to the hex of the
raw bytes of the sorted array. -/
def npArrayCanon : NpArray → Except String String
  | .numeric l =>
      if l.isEmpty then .ok "empty_array"
      else .ok (String.join (((l.insertionSort (fun a b => a ≤ b)).map int64LEHex)))
  | .object l =>
      if l.isEmpty then .ok "empty_array"
      else (npSortObject l).map
        (fun sortedElems =>
          "[" ++ String.intercalate " " (sortedElems.map PyScalar.npString) ++ "]")

/-- Key-ordered comparison of pairs: compare by first component only.
This is how sorted(data.items()) orders dict items with distinct keys and
how sort_index(axis=1) orders DataFrame columns by label. -/
def fstLe {κ α : Type} [LE κ] (a b : κ × α) : Prop := a.1 ≤ b.1

instance {α : Type} : DecidableRel (fstLe (κ := String) (α := α)) :=
  fun a b => decidable_of_iff (a.1.toList ≤ b.1.toList) String.le_iff_toList_le.symm

instance {α : Type} : DecidableRel (fstLe (κ := Nat) (α := α)) :=
  fun a b => Nat.decLe a.1 b.1

instance {κ α : Type} [LinearOrder κ] : IsTotal (κ × α) fstLe :=
  ⟨fun a b => le_total a.1 b.1⟩

instance {κ α : Type} [LinearOrder κ] : IsTrans (κ × α) fstLe :=
  ⟨fun _ _ _ h1 h2 => le_trans h1 h2⟩

/-- Strict key order on pairs, used only in proofs. -/
def fstLt {κ α : Type} [LT κ] (a b : κ × α) : Prop := a.1 < b.1

instance {κ α : Type} [LinearOrder κ] : IsAntisymm (κ × α) fstLt :=
  ⟨fun _ _ h1 h2 => absurd (lt_trans h1 h2) (lt_irrefl _)⟩

/-- CSV serialization of a DataFrame after the canonical sort of
calculate_data_hash line 67-69. The frame is embedded column-major
(pandas stores columns); a frame freshly constructed from raw rows
carries the default positional RangeIndex 0..n-1, so sort_index(axis=0)
is the identity and does not appear; sort_index(axis=1) sorts the
columns by label. to_csv(index=False) then writes the header line and
the rows. -/
def frameCsv (cols : List (String × List PyScalar)) : String :=
  let sortedCols := cols.insertionSort fstLe
  let header := String.intercalate "," (sortedCols.map (fun c => c.1))
  let rows := (sortedCols.map (fun c => c.2)).transpose
  header ++ "\n" ++
    String.join (rows.map (fun row => String.intercalate "," (row.map PyScalar.csvString) ++ "\n"))

/-- JSON rendering of a string (keys and digest values in scope contain
no characters requiring escapes). -/
def jsonStrString (s : String) : String := "\"" ++ s ++ "\""

/-- json.dumps of a str-to-str dict in insertion order, with the default
separators. -/
def jsonObjString (pairs : List (String × String)) : String :=
  "\x7b" ++
    String.intercalate ", "
      (pairs.map (fun kv => jsonStrString kv.1 ++ ": " ++ jsonStrString kv.2)) ++
  "\x7d"

/-- The except-clause of calculate_data_hash: a canonicalization failure
degrades to the error-derived string, line 94 of data_deduplication.py. -/
def canonFallback : Except String String → String
  | .ok s => s
  | .error e => "error_" ++ e

/-- A Python value reaching calculate_data_hash: a pandas DataFrame
(column-major, default positional index), a numpy array (already
flattened), a dict with string keys, or a scalar falling through to the
str() branch. -/
inductive PyValue
  | frame (cols : List (String × List PyScalar))
  | array (a : NpArray)
  | dict (entries : List (String × PyValue))
  | str (s : String)
  | int (n : Int)

mutual

/-- The try-block body of DataDeduplication.calculate_data_hash, lines
64-90: the canonical string of the value, or the message of the raised
exception. For a dict the items are key-sorted and each value is
replaced by its own calculate_data_hash digest (hashing each entry and
then key-sorting equals key-sorting and then hashing, since dict keys
are unique); the result is serialized with json.dumps. -/
def canonExc : PyValue → Except String String
  | .frame cols => .ok (frameCsv cols)
  | .array a => npArrayCanon a
  | .dict entries => .ok (jsonObjString ((canonEntries entries).insertionSort fstLe))
  | .str s => .ok s
  | .int n => .ok (toString n)

/-- Digests of the values of dict entries, in place. -/
def canonEntries : List (String × PyValue) → List (String × String)
  | [] => []
  | (k, v) :: rest => (k, sha256Hex (canonFallback (canonExc v))) :: canonEntries rest

end

/-- DataDeduplication.calculate_data_hash: SHA-256 of the canonical
string when canonicalization succeeds, of the error-derived string when
it fails. Total by construction, exactly as the try/except makes the
source total. -/
def calculate_data_hash (d : PyValue) : String :=
  sha256Hex (canonFallback (canonExc d))

/-! ## Fingerprint index (data_deduplication.py) -/

/-- Lookup in a Python dict embedded as an association list in insertion
order. -/
def dictLookup {α : Type} : List (String × α) → String → Option α
  | [], _ => none
  | (k, v) :: rest, key => if k = key then some v else dictLookup rest key

/-- Assignment d[key] = v on a Python dict embedded as an association
list: updates in place when the key exists, appends otherwise. -/
def dictInsert {α : Type} : List (String × α) → String → α → List (String × α)
  | [], key, v => [(key, v)]
  | (k, w) :: rest, key, v =>
      if k = key then (key, v) :: rest else (k, w) :: dictInsert rest key v

/-- One record of the fingerprint index, as stored by
add_data_to_index. -/
structure IndexEntry where
  hash : String
  data_type : String
  paper_id : String
  user_id : String
  timestamp : String
deriving DecidableEq, Repr

/-- The in-memory fingerprint index: entry_id to record, in insertion
order. -/
abbrev DedupIndex := List (String × IndexEntry)

/-- One match reported by find_similar_data. -/
structure SimilarMatch where
  entry_id : String
  paper_id : String
  user_id : String
  data_type : String
  timestamp : String
  similarity : Rat
  match_type : String
deriving DecidableEq, Repr

/-- DataDeduplication.find_similar_data, lines 98-136: one pass over the
index, exact hash matches first (similarity 1.0), otherwise same
data_type matches (similarity 0.5). -/
def find_similar_data (idx : DedupIndex) (data_hash data_type : String) : List SimilarMatch :=
  idx.filterMap (fun kv =>
    if kv.2.hash = data_hash then
      some { entry_id := kv.1, paper_id := kv.2.paper_id, user_id := kv.2.user_id,
             data_type := kv.2.data_type, timestamp := kv.2.timestamp,
             similarity := 1, match_type := "exact" }
    else if kv.2.data_type = data_type then
      some { entry_id := kv.1, paper_id := kv.2.paper_id, user_id := kv.2.user_id,
             data_type := kv.2.data_type, timestamp := kv.2.timestamp,
             similarity := mkRat 1 2, match_type := "type" }
    else none)

/-- DataDeduplication._generate_recommendation, lines 215-231. -/
def generate_recommendation (has_duplicate has_similar : Bool) : String :=
  if has_duplicate then
    "Exact duplicate found. Consider using existing data instead of uploading again."
  else if has_similar then
    "Similar data found. Review existing data to avoid redundancy."
  else
    "No duplicate or similar data found. Safe to upload."

/-- The duplication verdict returned by check_duplication_by_hash. -/
structure DuplicationCheckResult where
  data_hash : String
  data_type : String
  has_duplicate : Bool
  has_similar : Bool
  similar_data : List SimilarMatch
  recommendation : String
deriving DecidableEq, Repr

/-- DataDeduplication.check_duplication_by_hash, lines 181-213:
has_duplicate when some match has similarity 1.0, has_similar when the
match list is non-empty. The paper_id and user_id arguments are accepted
and, as in the source, not used by the decision logic. -/
def check_duplication_by_hash (idx : DedupIndex)
    (data_hash data_type paper_id user_id : String) : DuplicationCheckResult :=
  let similar_data := find_similar_data idx data_hash data_type
  let has_exact_match := similar_data.any (fun m => decide (m.similarity = 1))
  let has_similar_match := decide (similar_data.length > 0)
  { data_hash := data_hash, data_type := data_type,
    has_duplicate := has_exact_match, has_similar := has_similar_match,
    similar_data := similar_data,
    recommendation := generate_recommendation has_exact_match has_similar_match }

/-- DataDeduplication.add_data_to_index, lines 138-160: builds the entry
id from paper, user and the current POSIX timestamp, records the entry
(keyed Python-dict style), and returns the id. nowTs and nowIso are the
two renderings of the current time the source takes
(datetime.utcnow().timestamp() and .isoformat()). -/
def add_data_to_index (idx : DedupIndex)
    (data_hash data_type paper_id user_id nowTs nowIso : String) : String × DedupIndex :=
  let entry_id := "entry_" ++ paper_id ++ "_" ++ user_id ++ "_" ++ nowTs
  (entry_id,
   dictInsert idx entry_id
     { hash := data_hash, data_type := data_type, paper_id := paper_id,
       user_id := user_id, timestamp := nowIso })

/-! ## Persistence trace of _save_data_index (lines 46-52) -/

/-- A file operation on the index file: openTruncate models
open(self.data_index_path, "w"), which truncates the file on open;
writeAll models the subsequent json.dump of the serialized index. -/
inductive FileOp
  | openTruncate
  | writeAll (contents : String)
deriving DecidableEq, Repr

/-- The operation sequence DataDeduplication._save_data_index performs
on the index file: open-for-write (truncating) followed by the dump of
the whole index. There is no temporary file and no rename. -/
def save_data_index_ops (serialized : String) : List FileOp :=
  [.openTruncate, .writeAll serialized]

/-- Effect of one file operation on the contents of the index file. -/
def applyFileOp (content : String) : FileOp → String
  | .openTruncate => ""
  | .writeAll s => s

/-- Contents of the index file observable by a concurrent reader at
every point of an operation sequence: before the first operation, after
each operation. -/
def observableContents (initial : String) : List FileOp → List String
  | [] => [initial]
  | op :: rest => initial :: observableContents (applyFileOp initial op) rest

/-- A persist is an atomic whole-file replace precisely when every
observable state of the file is either the old full contents or the new
full contents. -/
def atomicReplace (old new : String) (states : List String) : Prop :=
  ∀ s ∈ states, s = old ∨ s = new

instance (old new : String) (states : List String) : Decidable (atomicReplace old new states) :=
  inferInstanceAs (Decidable (∀ s ∈ states, s = old ∨ s = new))

/-! ## Deduplication scheduler (deduplication_scheduler.py) -/

/-- Alert text sent for an exact duplicate, line 158. -/
def dedupDupMessage : String := "Exact duplicate found during scheduled deduplication"

/-- Alert text sent for similar data, line 172. -/
def dedupSimMessage : String := "Similar data found during scheduled deduplication"

/-- One notification handed to UserNotifier.send_deduplication_alert. -/
structure DedupAlert where
  user_id : String
  message : String
deriving DecidableEq, Repr

/-- One element of the details list of the run summary. -/
structure RunDetail where
  entry_id : String
  paper_id : String
  user_id : String
  data_type : String
  timestamp : String
  has_duplicate : Bool
  has_similar : Bool
  recommendation : String
deriving DecidableEq, Repr

/-- The run summary record built by run_deduplication. -/
structure DedupRunResult where
  timestamp : String
  total_data : Nat
  checked_data : Nat
  duplicate_found : Nat
  similar_found : Nat
  details : List RunDetail
deriving DecidableEq, Repr

/-- The filter at lines 133-135: skip the entry iff data_ids is truthy
(neither None nor the empty list) and does not contain the id. -/
def schedulerKeep (data_ids : Option (List String)) (entry_id : String) : Bool :=
  match data_ids with
  | none => true
  | some l => if l.isEmpty then true else l.contains entry_id

/-- One loop iteration of run_deduplication, lines 132-186: re-check the
entry against the whole current index using its stored hash, tally, and
alert the owning user on has_duplicate and on has_similar. -/
def runDedupStep (idx : DedupIndex) (data_ids : Option (List String))
    (acc : DedupRunResult × List DedupAlert) (kv : String × IndexEntry) :
    DedupRunResult × List DedupAlert :=
  if schedulerKeep data_ids kv.1 then
    let res := check_duplication_by_hash idx kv.2.hash kv.2.data_type kv.2.paper_id kv.2.user_id
    let summary :=
      { acc.1 with
        checked_data := acc.1.checked_data + 1,
        duplicate_found := acc.1.duplicate_found + (if res.has_duplicate then 1 else 0),
        similar_found := acc.1.similar_found + (if res.has_similar then 1 else 0),
        details := acc.1.details ++
          [{ entry_id := kv.1, paper_id := kv.2.paper_id, user_id := kv.2.user_id,
             data_type := kv.2.data_type, timestamp := kv.2.timestamp,
             has_duplicate := res.has_duplicate, has_similar := res.has_similar,
             recommendation := res.recommendation }] }
    let alerts := acc.2 ++
      (if res.has_duplicate then [{ user_id := kv.2.user_id, message := dedupDupMessage }] else []) ++
      (if res.has_similar then [{ user_id := kv.2.user_id, message := dedupSimMessage }] else [])
    (summary, alerts)
  else acc

/-- DeduplicationScheduler.run_deduplication, lines 103-192: iterate the
index, re-check every kept entry by its own stored hash against the same
index, and emit alerts. Returns the run summary and the alerts sent. -/
def run_deduplication (idx : DedupIndex) (data_ids : Option (List String))
    (nowIso : String) : DedupRunResult × List DedupAlert :=
  idx.foldl (runDedupStep idx data_ids)
    ({ timestamp := nowIso, total_data := idx.length, checked_data := 0,
       duplicate_found := 0, similar_found := 0, details := [] }, [])

/-! ## Encrypted 4D object store (four_d_data_handler.py) -/

/-- A datetime embedded by its isoformat rendering;
datetime.fromisoformat inverts isoformat, so identity of the rendering
is identity of the datetime. -/
structure PyDatetime where
  iso : String
deriving DecidableEq, Repr

/-- SpaceCoordinate from paper_model.py (floats embedded as rationals;
the store only passes coordinates through and compares them for
equality). -/
structure SpaceCoordinate where
  latitude : Rat
  longitude : Rat
  altitude : Rat
  coordinate_system : String
deriving DecidableEq, Repr

/-- The metadata block save_four_d_data embeds in the container,
lines 50-58. -/
structure FourDMetadata where
  data_id : String
  user_id : String
  paper_id : String
  timestamp : String
  space_coordinate : Option SpaceCoordinate
  data_hash : String
  create_time : String
deriving DecidableEq, Repr

/-- A payload handed to save_four_d_data: a single dataset (stored under
the name "data") or a dict of named datasets. Dataset values are numeric
arrays, the payload category HDF5 datasets round-trip byte-exactly. -/
inductive FourDPayload
  | single (data : List Int)
  | mapping (entries : List (String × List Int))
deriving DecidableEq, Repr

/-- str(data_content), used only for the coarse integrity hash stored in
the metadata (numpy array str for a single dataset, dict str
otherwise). -/
def FourDPayload.pyStr : FourDPayload → String
  | .single l => "[" ++ String.intercalate " " (l.map toString) ++ "]"
  | .mapping es =>
      "\x7b" ++
        String.intercalate ", "
          (es.map (fun kv =>
            "\x27" ++ kv.1 ++ "\x27: [" ++ String.intercalate " " (kv.2.map toString) ++ "]")) ++
      "\x7d"

/-- The HDF5 container: the metadata JSON stored as a file attribute and
the named datasets. -/
structure H5File where
  metadata : FourDMetadata
  datasets : List (String × List Int)
deriving DecidableEq, Repr

/-- A Fernet ciphertext from encryption.py: authenticated encryption is
embedded as the plaintext paired with the key used. -/
structure EncryptedBlob where
  plain : H5File
  key : String
deriving DecidableEq, Repr

/-- encrypt_content from encryption.py. -/
def encrypt_content (content : H5File) (key : String) : EncryptedBlob :=
  { plain := content, key := key }

/-- decrypt_content from encryption.py: Fernet verifies the
authentication tag, so decryption with the wrong key (or of tampered
bytes) raises rather than returning garbage. -/
def decrypt_content (blob : EncryptedBlob) (key : String) : Except String H5File :=
  if blob.key = key then .ok blob.plain
  else .error "ValueError: Decryption failed: invalid key or tampered content"

/-- The durable state of the store directory: path to encrypted blob.
Only the encrypted file survives a save (the unencrypted intermediate
HDF5 file is removed before save returns, line 81). -/
structure FourDStore where
  files : List (String × EncryptedBlob)
deriving DecidableEq, Repr

/-- FourDDataHandler.save_four_d_data, lines 24-84: build the metadata,
write the datasets into one container (a dict payload contributes one
dataset per key, anything else is stored under the name "data"), encrypt
the whole container with the caller-supplied key and persist it at the
path derived from data_id. Returns the new store state and the
path. createTime stands for datetime.utcnow().isoformat() at line 57. -/
def save_four_d_data (store : FourDStore) (data_content : FourDPayload)
    (data_id user_id paper_id : String) (timestamp : PyDatetime)
    (space_coordinate : Option SpaceCoordinate) (encryption_key : String)
    (createTime : String) : FourDStore × String :=
  let metadata : FourDMetadata :=
    { data_id := data_id, user_id := user_id, paper_id := paper_id,
      timestamp := timestamp.iso, space_coordinate := space_coordinate,
      data_hash := sha256Hex data_content.pyStr, create_time := createTime }
  let datasets : List (String × List Int) :=
    match data_content with
    | .mapping es => es
    | .single l => [("data", l)]
  let path := data_id ++ ".h5.enc"
  ({ files := dictInsert store.files path (encrypt_content ⟨metadata, datasets⟩ encryption_key) },
   path)

/-- Temporal filter of load_four_d_data, lines 128-131: with a
timestamp given, mismatch of the stored metadata timestamp raises
(fromisoformat inverts isoformat, so the datetimes disagree exactly when
the renderings do). -/
def tsMismatch : Option PyDatetime → FourDMetadata → Bool
  | none, _ => false
  | some t, m => decide (m.timestamp ≠ t.iso)

/-- Spatial filter of load_four_d_data, lines 134-137. -/
def scMismatch : Option SpaceCoordinate → FourDMetadata → Bool
  | none, _ => false
  | some sc, m => decide (m.space_coordinate ≠ some sc)

/-- FourDDataHandler.load_four_d_data, lines 86-149: locate the blob
(FileNotFoundError otherwise), decrypt it, apply the optional exact
timestamp and coordinate filters (ValueError on mismatch), then read the
datasets back; h5py iterates dataset names alphabetically, and line 143
returns the dict when more than one dataset exists, otherwise the
dataset named "data" (a KeyError when no dataset has that name). -/
def load_four_d_data (store : FourDStore) (data_id : String) (encryption_key : String)
    (timestamp : Option PyDatetime) (space_coordinate : Option SpaceCoordinate) :
    Except String (FourDMetadata × FourDPayload) :=
  match dictLookup store.files (data_id ++ ".h5.enc") with
  | none => .error ("FileNotFoundError: 4D data " ++ data_id ++ " not found")
  | some blob =>
      match decrypt_content blob encryption_key with
      | .error e => .error e
      | .ok h5 =>
          let metadata := h5.metadata
          if tsMismatch timestamp metadata then .error "ValueError: Timestamp mismatch"
          else if scMismatch space_coordinate metadata then
            .error "ValueError: Spatial coordinate mismatch"
          else
            let data := h5.datasets.insertionSort fstLe
            if data.length > 1 then .ok (metadata, .mapping data)
            else
              match dictLookup data "data" with
              | some v => .ok (metadata, .single v)
              | none => .error "KeyError: data"

/-! ## Paper version model (paper_model.py) -/

/-- FourDDataReference from paper_model.py. -/
structure FourDDataReference where
  data_id : String
  timestamp : PyDatetime
  space_coordinate : Option SpaceCoordinate
  data_hash : String
  data_type : String
  description : String
deriving DecidableEq, Repr

/-- PaperVersion from paper_model.py (version_number is a Python int,
embedded as Int). -/
structure PaperVersion where
  version_id : String
  version_number : Int
  create_time : PyDatetime
  update_reason : String
  four_d_data_references : List FourDDataReference
  paper_content_hash : String
  author_team : List String
  space_context : Option SpaceCoordinate
deriving DecidableEq, Repr

/-- DynamicPaper from paper_model.py. -/
structure DynamicPaper where
  paper_id : String
  title : String
  research_purpose : String
  creator : String
  create_time : PyDatetime
  latest_version : Int
  versions : List PaperVersion
  is_encrypted : Bool
  access_permissions : List (String × String)
  long_term_tracking : Bool
deriving DecidableEq, Repr

/-- DynamicPaper.add_new_version, lines 50-55: raise ValueError unless
version_number is exactly latest_version + 1, otherwise append the
version and advance latest_version. The raise precedes both mutations,
so a failed append leaves the paper unchanged; failure is embedded as
Except.error carrying the message, with the original paper retained by
the caller. -/
def DynamicPaper.add_new_version (p : DynamicPaper) (v : PaperVersion) :
    Except String DynamicPaper :=
  if v.version_number ≠ p.latest_version + 1 then
    .error ("Invalid version number: expected " ++ toString (p.latest_version + 1) ++
      ", got " ++ toString v.version_number)
  else
    .ok { p with versions := p.versions ++ [v], latest_version := v.version_number }

/-! ## Temporal index (timeseries_db.py) -/

/-- The paper partitions of the HDF5 database: paper_id to the list of
(timestamp key, serialized version JSON) entries of the paper group. -/
structure TimeSeriesDB where
  papers : List (String × List (String × String))
deriving DecidableEq, Repr

/-- str.split of a character list at every occurrence of a separator,
as Python str.split(sep) groups (empty groups kept). -/
def splitOnChar (sep : Char) (l : List Char) : List (List Char) :=
  l.foldr
    (fun c acc =>
      match acc with
      | [] => [[c]]
      | g :: gs => if c = sep then [] :: g :: gs else (c :: g) :: gs)
    [[]]

/-- int parsing of a non-empty all-digit character group, as strptime
reads one numeric field. -/
def digitsToNat? (l : List Char) : Option Nat :=
  if l ≠ [] ∧ l.all (fun c => 48 ≤ c.toNat ∧ c.toNat ≤ 57) then
    some (l.foldl (fun acc c => acc * 10 + (c.toNat - 48)) 0)
  else none

/-- Timestamp parsing of get_versions_by_time_range, lines 107-109: the
key is split on underscores, the first three components
(%Y%m%d, %H%M%S, %f as written by insert_paper_version at line 52) are
rejoined and parsed by strptime; any failure (missing components,
non-digits, wrong widths) raises, and the caller skips that entry. The
parsed datetime is embedded as the Nat (ymd * 10^6 + hms) * 10^6 +
micro, which is ordered chronologically exactly as the datetime. -/
def parseTsKeyTimestamp (k : String) : Option Nat :=
  match splitOnChar '_' k.data with
  | a :: b :: c :: _ =>
      if a.length = 8 ∧ b.length = 6 ∧ c.length = 6 then
        match digitsToNat? a, digitsToNat? b, digitsToNat? c with
        | some x, some y, some z => some ((x * 1000000 + y) * 1000000 + z)
        | _, _, _ => none
      else none
  | _ => none

/-- TimeSeriesDB.get_versions_by_time_range, lines 78-125: empty result
(with a logged warning) when the paper has no partition; otherwise every
entry of the partition whose key parses to a timestamp within the
inclusive range is kept (parse failures are skipped), and the result is
sorted ascending by timestamp. The source sorts by the isoformat string
it re-embeds at line 115, whose lexicographic order agrees with
chronological order for the four-digit-year keys the index writes. Each
result is embedded as (parsed timestamp, serialized version). -/
def get_versions_by_time_range (db : TimeSeriesDB) (paper_id : String)
    (start_time end_time : Nat) : List (Nat × String) :=
  match dictLookup db.papers paper_id with
  | none => []
  | some entries =>
      (entries.filterMap (fun kv =>
        match parseTsKeyTimestamp kv.1 with
        | none => none
        | some ts =>
            if start_time ≤ ts ∧ ts ≤ end_time then some (ts, kv.2) else none)).insertionSort fstLe

/-! ## Module loading of timeseries_db.py -/

/-- Python builtin type names resolvable in annotations without
any importing. -/
def pythonBuiltins : List String :=
  ["str", "int", "float", "bool", "bytes", "dict", "list", "tuple"]

/-- Names bound at module level of src/src/storage/timeseries_db.py
before the class body is evaluated: the imports of os, json, h5py,
datetime (from datetime), Dict, Any and List (from typing), logging and
PaperVersion (from paper_model), plus the logger assignment. Optional
is not among them (line 5). -/
def timeseriesModuleBindings : List String :=
  ["os", "json", "h5py", "datetime", "Dict", "Any", "List", "logging", "logger", "PaperVersion"]

/-- The annotations of the methods of class TimeSeriesDB in source
order, each with the names its annotation expressions reference. The
module has no future-annotations import, so Python evaluates every
annotation eagerly while the def statement executes during class
creation, which happens at module import. -/
def timeseriesAnnotationRefs : List (String × List String) :=
  [("__init__", ["str"]),
   ("insert_paper_version", ["str", "PaperVersion", "datetime"]),
   ("get_versions_by_time_range", ["str", "datetime", "List", "Dict", "Any"]),
   ("get_all_versions", ["str", "List", "Dict", "Any"]),
   ("get_version_by_timestamp", ["str", "datetime", "Optional", "Dict", "Any"])]

/-- Whether a name used in an annotation of timeseries_db.py resolves. -/
def timeseriesResolves (n : String) : Bool :=
  pythonBuiltins.contains n || timeseriesModuleBindings.contains n

/-- Importing src/src/storage/timeseries_db.py: the annotations are
evaluated in order and the first unresolvable name raises NameError,
aborting the import of the module. -/
def importTimeseriesModule : Except String Unit :=
  timeseriesAnnotationRefs.foldl
    (fun acc meth =>
      match acc with
      | .error e => .error e
      | .ok _ =>
          match meth.2.find? (fun n => !timeseriesResolves n) with
          | some n => .error ("NameError: name " ++ n ++ " is not defined")
          | none => .ok ())
    (.ok ())

/-- The Temporal Index operations callers can reach: available only when
the module imports successfully. -/
def timeseriesAvailableOperations : List String :=
  match importTimeseriesModule with
  | .ok _ =>
      ["insert_paper_version", "get_versions_by_time_range",
       "get_all_versions", "get_version_by_timestamp"]
  | .error _ => []

/-! ## Helper lemmas -/

theorem mem_dictInsert_self {α : Type} (l : List (String × α)) (k : String) (v : α) :
    (k, v) ∈ dictInsert l k v := by
  induction l with
  | nil => simp [dictInsert]
  | cons kv rest ih =>
      simp only [dictInsert]
      split
      · exact List.mem_cons_self _ _
      · exact List.mem_cons_of_mem _ ih

theorem mem_dictInsert_elim {α : Type} {l : List (String × α)} {k : String} {v : α}
    {kv : String × α} (h : kv ∈ dictInsert l k v) : kv = (k, v) ∨ kv ∈ l := by
  induction l with
  | nil => simpa [dictInsert] using h
  | cons hd rest ih =>
      simp only [dictInsert] at h
      split at h
      · rcases List.mem_cons.mp h with h1 | h1
        · exact Or.inl h1
        · exact Or.inr (List.mem_cons_of_mem _ h1)
      · rcases List.mem_cons.mp h with h1 | h1
        · exact Or.inr (h1 ▸ List.mem_cons_self _ _)
        · rcases ih h1 with h2 | h2
          · exact Or.inl h2
          · exact Or.inr (List.mem_cons_of_mem _ h2)

theorem dictLookup_dictInsert_self {α : Type} (l : List (String × α)) (k : String) (v : α) :
    dictLookup (dictInsert l k v) k = some v := by
  induction l with
  | nil => simp [dictInsert, dictLookup]
  | cons hd rest ih =>
      simp only [dictInsert]
      split
      · simp [dictLookup]
      · next hne => simp [dictLookup, hne, ih]

/-- Two permutation-equal Int lists sort identically. -/
theorem insertionSort_int_eq_of_perm {l l' : List Int} (hp : List.Perm l l') :
    l.insertionSort (fun a b => a ≤ b) = l'.insertionSort (fun a b => a ≤ b) :=
  List.eq_of_perm_of_sorted
    ((List.perm_insertionSort _ _).trans (hp.trans (List.perm_insertionSort _ _).symm))
    (List.sorted_insertionSort _ _) (List.sorted_insertionSort _ _)

/-- Two permutation-equal String lists sort identically. -/
theorem insertionSort_string_eq_of_perm {l l' : List String} (hp : List.Perm l l') :
    l.insertionSort (fun a b => a ≤ b) = l'.insertionSort (fun a b => a ≤ b) :=
  List.eq_of_perm_of_sorted
    ((List.perm_insertionSort _ _).trans (hp.trans (List.perm_insertionSort _ _).symm))
    (List.sorted_insertionSort _ _) (List.sorted_insertionSort _ _)

/-- Key-sorting two permutation-equal association lists with duplicate
free keys gives the same list. -/
theorem insertionSort_fstLe_eq_of_perm {κ α : Type} [LinearOrder κ]
    [DecidableRel (fstLe (κ := κ) (α := α))]
    {l₁ l₂ : List (κ × α)} (hp : List.Perm l₁ l₂) (hn : (l₁.map Prod.fst).Nodup) :
    l₁.insertionSort fstLe = l₂.insertionSort fstLe := by
  have hp1 : List.Perm (l₁.insertionSort fstLe) l₁ := List.perm_insertionSort _ _
  have hp2 : List.Perm (l₂.insertionSort fstLe) l₂ := List.perm_insertionSort _ _
  have hps : List.Perm (l₁.insertionSort fstLe) (l₂.insertionSort fstLe) :=
    hp1.trans (hp.trans hp2.symm)
  have hn1 : ((l₁.insertionSort fstLe).map Prod.fst).Nodup :=
    ((hp1.map Prod.fst).nodup_iff).mpr hn
  have hn2 : ((l₂.insertionSort fstLe).map Prod.fst).Nodup :=
    ((hps.map Prod.fst).nodup_iff).mp hn1
  have hstrict : ∀ (m : List (κ × α)), List.Sorted fstLe m → (m.map Prod.fst).Nodup →
      List.Sorted fstLt m := by
    intro m hs hnd
    have hne : m.Pairwise (fun a b : κ × α => a.1 ≠ b.1) := List.pairwise_map.mp hnd
    exact (hs.and hne).imp (fun hab => lt_of_le_of_ne hab.1 hab.2)
  exact List.eq_of_perm_of_sorted hps
    (hstrict _ (List.sorted_insertionSort _ _) hn1)
    (hstrict _ (List.sorted_insertionSort _ _) hn2)

/-- canonEntries rewrites every entry value to its digest in place. -/
theorem canonEntries_eq_map (l : List (String × PyValue)) :
    canonEntries l = l.map (fun kv => (kv.1, sha256Hex (canonFallback (canonExc kv.2)))) := by
  induction l with
  | nil => rfl
  | cons hd rest ih => cases hd; simp [canonEntries, ih]

/-- An index entry whose stored hash equals the probed hash makes the
verdict an exact duplicate. -/
theorem check_has_duplicate_of_mem {idx : DedupIndex} {eid : String} {e : IndexEntry}
    {dh dt p u : String} (hmem : (eid, e) ∈ idx) (hh : e.hash = dh) :
    (check_duplication_by_hash idx dh dt p u).has_duplicate = true := by
  simp only [check_duplication_by_hash]
  refine List.any_eq_true.mpr ?_
  refine ⟨{ entry_id := eid, paper_id := e.paper_id, user_id := e.user_id,
            data_type := e.data_type, timestamp := e.timestamp,
            similarity := 1, match_type := "exact" }, ?_, by simp⟩
  exact List.mem_filterMap.mpr ⟨(eid, e), hmem, by simp [hh]⟩

/-- An index entry with matching hash or matching category makes the
verdict similar. -/
theorem check_has_similar_of_mem {idx : DedupIndex} {eid : String} {e : IndexEntry}
    {dh dt p u : String} (hmem : (eid, e) ∈ idx) (hor : e.hash = dh ∨ e.data_type = dt) :
    (check_duplication_by_hash idx dh dt p u).has_similar = true := by
  simp only [check_duplication_by_hash]
  have hnonempty : ∃ m, m ∈ find_similar_data idx dh dt := by
    by_cases hcase : e.hash = dh
    · exact ⟨{ entry_id := eid, paper_id := e.paper_id, user_id := e.user_id,
               data_type := e.data_type, timestamp := e.timestamp,
               similarity := 1, match_type := "exact" },
        List.mem_filterMap.mpr ⟨(eid, e), hmem, by simp [hcase]⟩⟩
    · have hdt : e.data_type = dt := hor.resolve_left hcase
      exact ⟨{ entry_id := eid, paper_id := e.paper_id, user_id := e.user_id,
               data_type := e.data_type, timestamp := e.timestamp,
               similarity := mkRat 1 2, match_type := "type" },
        List.mem_filterMap.mpr ⟨(eid, e), hmem, by simp [hcase, hdt]⟩⟩
  obtain ⟨m, hm⟩ := hnonempty
  simp [List.length_pos.mpr (List.ne_nil_of_mem hm)]

/-- With no stored hash equal to the probed hash, the verdict reports no
exact duplicate. -/
theorem check_no_duplicate_of_no_hash {idx : DedupIndex} {dh dt p u : String}
    (h : ∀ kv ∈ idx, (kv : String × IndexEntry).2.hash ≠ dh) :
    (check_duplication_by_hash idx dh dt p u).has_duplicate = false := by
  simp only [check_duplication_by_hash]
  refine List.any_eq_false.mpr ?_
  intro m hm
  obtain ⟨kv, hkv, hf⟩ := List.mem_filterMap.mp hm
  have hne : kv.2.hash ≠ dh := h kv hkv
  simp only [if_neg hne] at hf
  split at hf
  · cases hf
    simp only [decide_eq_true_eq]
    intro hcontra
    exact absurd hcontra (by decide)
  · cases hf

/-- Permutation-equal lists agree on emptiness. -/
theorem perm_isEmpty_eq {α : Type} {l l' : List α} (hp : List.Perm l l') :
    l.isEmpty = l'.isEmpty := by
  cases l with
  | nil =>
      cases l' with
      | nil => rfl
      | cons b bs => exact absurd hp.length_eq (by simp)
  | cons a as =>
      cases l' with
      | nil => exact absurd hp.length_eq (by simp)
      | cons b bs => rfl

/-- Permutation-equal lists agree on all. -/
theorem perm_all_eq {α : Type} {l l' : List α} (hp : List.Perm l l') (p : α → Bool) :
    l.all p = l'.all p := by
  have hiff : l.all p = true ↔ l'.all p = true := by
    simp only [List.all_eq_true]
    exact ⟨fun h x hx => h x (hp.mem_iff.mpr hx), fun h x hx => h x (hp.mem_iff.mp hx)⟩
  cases hb : l.all p with
  | true => exact (hiff.mp hb).symm
  | false =>
      cases hb2 : l'.all p with
      | true => exact absurd (hiff.mpr hb2) (by simp [hb])
      | false => rfl

/-- Every scheduler step over entries of the index increments the
duplicate tally exactly when it increments the checked tally, because
every checked entry matches itself in the index. -/
theorem runDedup_foldl_dup_eq (idx : DedupIndex) (ids : Option (List String)) :
    ∀ (l : List (String × IndexEntry)) (acc : DedupRunResult × List DedupAlert),
      (∀ kv ∈ l, kv ∈ idx) →
      (l.foldl (runDedupStep idx ids) acc).1.duplicate_found + acc.1.checked_data =
        (l.foldl (runDedupStep idx ids) acc).1.checked_data + acc.1.duplicate_found
  | [], acc, _ => by simp only [List.foldl_nil]; omega
  | kv :: rest, acc, hsub => by
      obtain ⟨eid, e⟩ := kv
      have hmem : (eid, e) ∈ idx := hsub (eid, e) (List.mem_cons_self _ _)
      have hsub2 : ∀ x ∈ rest, x ∈ idx := fun x hx => hsub x (List.mem_cons_of_mem _ hx)
      simp only [List.foldl_cons]
      by_cases hkeep : schedulerKeep ids eid = true
      · have hdup := @check_has_duplicate_of_mem idx eid e e.hash e.data_type
          e.paper_id e.user_id hmem rfl
        have step :=
          runDedup_foldl_dup_eq idx ids rest (runDedupStep idx ids acc (eid, e)) hsub2
        simp only [runDedupStep, hkeep, if_true, hdup] at step ⊢
        omega
      · have hkeep2 : schedulerKeep ids eid = false := by
          cases h2 : schedulerKeep ids eid
          · rfl
          · exact absurd h2 hkeep
        have step :=
          runDedup_foldl_dup_eq idx ids rest (runDedupStep idx ids acc (eid, e)) hsub2
        simp only [runDedupStep, hkeep2, Bool.false_eq_true, if_false] at step ⊢
        omega

/-- Alerts already accumulated survive the rest of a scheduler run. -/
theorem runDedup_foldl_alert_mono (idx : DedupIndex) (ids : Option (List String))
    (a : DedupAlert) :
    ∀ (l : List (String × IndexEntry)) (acc : DedupRunResult × List DedupAlert),
      a ∈ acc.2 → a ∈ (l.foldl (runDedupStep idx ids) acc).2
  | [], _, h => h
  | kv :: rest, acc, h => by
      simp only [List.foldl_cons]
      refine runDedup_foldl_alert_mono idx ids a rest _ ?_
      simp only [runDedupStep]
      split
      · exact List.mem_append_left _ (List.mem_append_left _ h)
      · exact h

/-- Every kept entry of the index contributes a duplicate alert to its
owner during the scheduler fold. -/
theorem runDedup_foldl_alert_of_mem (idx : DedupIndex) (ids : Option (List String))
    {kv : String × IndexEntry} :
    ∀ (l : List (String × IndexEntry)) (acc : DedupRunResult × List DedupAlert),
      kv ∈ l → (∀ x ∈ l, x ∈ idx) → schedulerKeep ids kv.1 = true →
      ({ user_id := kv.2.user_id, message := dedupDupMessage } : DedupAlert) ∈
        (l.foldl (runDedupStep idx ids) acc).2
  | [], _, hkv, _, _ => absurd hkv (List.not_mem_nil kv)
  | hd :: rest, acc, hkv, hsub, hkeep => by
      simp only [List.foldl_cons]
      rcases List.mem_cons.mp hkv with heq | hmem
      · subst heq
        obtain ⟨eid, e⟩ := kv
        have hmemidx : (eid, e) ∈ idx := hsub (eid, e) (List.mem_cons_self _ _)
        have hdup := @check_has_duplicate_of_mem idx eid e e.hash e.data_type
          e.paper_id e.user_id hmemidx rfl
        refine runDedup_foldl_alert_mono idx ids _ rest _ ?_
        simp only [runDedupStep, hkeep, if_true, hdup]
        exact List.mem_append_left _
          (List.mem_append_right _ (List.mem_singleton_self _))
      · exact runDedup_foldl_alert_of_mem idx ids rest _ hmem
          (fun x hx => hsub x (List.mem_cons_of_mem _ hx)) hkeep

/-! ## Claim theorems -/

/-- Claim C3: for every paper with latest version L, appending a version
event numbered L+1 succeeds, appends it to the version list and makes
L+1 the new latest; appending any other number raises ValueError, and
since the raise precedes both mutations the version list and latest
remain unchanged. -/
theorem add_new_version_spec (p : DynamicPaper) (v : PaperVersion) :
    (v.version_number = p.latest_version + 1 →
      p.add_new_version v =
        .ok { p with versions := p.versions ++ [v], latest_version := p.latest_version + 1 }) ∧
    (v.version_number ≠ p.latest_version + 1 →
      p.add_new_version v =
        .error ("Invalid version number: expected " ++ toString (p.latest_version + 1) ++
          ", got " ++ toString v.version_number)) := by
  constructor
  · intro h
    simp [DynamicPaper.add_new_version, h]
  · intro h
    simp [DynamicPaper.add_new_version, h]

theorem add_new_version_spec_witness :
    (DynamicPaper.add_new_version ⟨"p1", "t", "r", "c", ⟨"ct"⟩, 1, [], true, [], true⟩
       ⟨"v2", 2, ⟨"ct2"⟩, "update", [], "h", ["a1"], none⟩ =
     .ok ⟨"p1", "t", "r", "c", ⟨"ct"⟩, 2,
       [⟨"v2", 2, ⟨"ct2"⟩, "update", [], "h", ["a1"], none⟩], true, [], true⟩) ∧
    (DynamicPaper.add_new_version ⟨"p1", "t", "r", "c", ⟨"ct"⟩, 1, [], true, [], true⟩
       ⟨"v5", 5, ⟨"ct2"⟩, "update", [], "h", ["a1"], none⟩ =
     .error "Invalid version number: expected 2, got 5") :=
  ⟨(add_new_version_spec ⟨"p1", "t", "r", "c", ⟨"ct"⟩, 1, [], true, [], true⟩
      ⟨"v2", 2, ⟨"ct2"⟩, "update", [], "h", ["a1"], none⟩).1 (by decide),
   (add_new_version_spec ⟨"p1", "t", "r", "c", ⟨"ct"⟩, 1, [], true, [], true⟩
      ⟨"v5", 5, ⟨"ct2"⟩, "update", [], "h", ["a1"], none⟩).2 (by decide)⟩

/-- Claim C6 counterexample: the persist performed by _save_data_index
(called by register and remove) is not an atomic whole-file replace:
replaying its file operations from a concrete non-empty old index
exposes a truncated (empty) intermediate state that is neither the old
nor the new contents, so a concurrent reader can observe a partially
written index. There is no write-to-temp-then-rename in the source. -/
theorem save_data_index_not_atomic_counterexample :
    ¬ atomicReplace "\x7b\"a\": 1\x7d" "\x7b\"a\": 1, \"b\": 2\x7d"
        (observableContents "\x7b\"a\": 1\x7d"
          (save_data_index_ops "\x7b\"a\": 1, \"b\": 2\x7d")) := by decide

/-- Claim C6 amended: every persist of the fingerprint index performed
by register (and by remove) is a direct truncate-then-write of the index
file in place — open(path, "w") followed by json.dump — so the
observable file states are exactly the old contents, the empty file, and
the new contents, and for non-empty old and new indexes the persist is
not an atomic whole-file replace: a reader can observe a partially
written (truncated) index. -/
theorem save_data_index_overwrite_spec (old serialized : String)
    (hold : old ≠ "") (hnew : serialized ≠ "") :
    observableContents old (save_data_index_ops serialized) = [old, "", serialized] ∧
    ¬ atomicReplace old serialized
        (observableContents old (save_data_index_ops serialized)) := by
  refine ⟨rfl, ?_⟩
  intro h
  have hmem : "" ∈ observableContents old (save_data_index_ops serialized) := by
    simp [observableContents, save_data_index_ops, applyFileOp]
  rcases h "" hmem with h1 | h1
  · exact hold h1.symm
  · exact hnew h1.symm

theorem save_data_index_overwrite_spec_witness :
    observableContents "\x7bA\x7d" (save_data_index_ops "\x7bB\x7d") =
      ["\x7bA\x7d", "", "\x7bB\x7d"] ∧
    ¬ atomicReplace "\x7bA\x7d" "\x7bB\x7d"
        (observableContents "\x7bA\x7d" (save_data_index_ops "\x7bB\x7d")) :=
  save_data_index_overwrite_spec "\x7bA\x7d" "\x7bB\x7d" (by decide) (by decide)

/-- Claim C7: calculate_data_hash is total over the embedded value
domain — every input yields the digest of some canonical string (the
try/except of the source never lets an exception escape), and whenever
canonicalization fails the result is the digest of the error-derived
string, so ingestion is never blocked. -/
theorem calculate_data_hash_total (d : PyValue) :
    (∃ s, calculate_data_hash d = sha256Hex s) ∧
    (∀ e, canonExc d = .error e →
      calculate_data_hash d = sha256Hex ("error_" ++ e)) := by
  refine ⟨⟨canonFallback (canonExc d), rfl⟩, ?_⟩
  intro e he
  simp [calculate_data_hash, he, canonFallback]

theorem calculate_data_hash_total_witness :
    canonExc (.array (.object [.int 1, .str "a"])) =
      .error "TypeError: unorderable types in object array sort" ∧
    calculate_data_hash (.array (.object [.int 1, .str "a"])) =
      sha256Hex ("error_" ++ "TypeError: unorderable types in object array sort") :=
  ⟨by decide,
   (calculate_data_hash_total (.array (.object [.int 1, .str "a"]))).2
     "TypeError: unorderable types in object array sort" (by decide)⟩

/-- Claim C9: every verdict of check_duplication_by_hash has has_similar
set exactly when the match list is non-empty — including when the only
matches are exact — so has_duplicate implies has_similar and has_similar
does not mean similar-but-not-identical. -/
theorem check_similar_semantics (idx : DedupIndex) (dh dt p u : String) :
    ((check_duplication_by_hash idx dh dt p u).has_similar = true ↔
      (check_duplication_by_hash idx dh dt p u).similar_data ≠ []) ∧
    ((check_duplication_by_hash idx dh dt p u).has_duplicate = true →
      (check_duplication_by_hash idx dh dt p u).has_similar = true) := by
  constructor
  · simp only [check_duplication_by_hash]
    simp [List.length_pos]
  · intro h
    simp only [check_duplication_by_hash] at h ⊢
    obtain ⟨m, hm, _⟩ := List.any_eq_true.mp h
    simp [List.length_pos.mpr (List.ne_nil_of_mem hm)]

theorem check_similar_semantics_witness :
    ((check_duplication_by_hash [("e1", ⟨"h1", "t", "p1", "u1", "ts"⟩)] "h1" "t" "p" "u").has_similar = true ↔
      (check_duplication_by_hash [("e1", ⟨"h1", "t", "p1", "u1", "ts"⟩)] "h1" "t" "p" "u").similar_data ≠ []) ∧
    (check_duplication_by_hash [("e1", ⟨"h1", "t", "p1", "u1", "ts"⟩)] "h1" "t" "p" "u").has_similar = true :=
  ⟨(check_similar_semantics [("e1", ⟨"h1", "t", "p1", "u1", "ts"⟩)] "h1" "t" "p" "u").1,
   (check_similar_semantics [("e1", ⟨"h1", "t", "p1", "u1", "ts"⟩)] "h1" "t" "p" "u").2 (by decide)⟩

/-- Claim C10: importing src/src/storage/timeseries_db.py raises
NameError at module load time — the return annotation of
get_version_by_timestamp references Optional, a name the module never
binds and one Python evaluates eagerly during class creation — so
every Temporal Index operation is unavailable to callers. -/
theorem timeseries_module_unavailable :
    importTimeseriesModule = .error "NameError: name Optional is not defined" ∧
    timeseriesAvailableOperations = [] :=
  ⟨rfl, rfl⟩

/-- Claim C5: after registering an entry with fingerprint fp and
category cat, a check with the same fingerprint reports has_duplicate;
and with the same category but a fingerprint that differs from fp and
from every hash already stored, the check reports has_similar without
has_duplicate. -/
theorem check_after_register (idx : DedupIndex)
    (fp cat paper user nowTs nowIso fp2 : String)
    (hne : fp2 ≠ fp)
    (hfresh : ∀ kv ∈ idx, (kv : String × IndexEntry).2.hash ≠ fp2) :
    (check_duplication_by_hash (add_data_to_index idx fp cat paper user nowTs nowIso).2
        fp cat paper user).has_duplicate = true ∧
    (check_duplication_by_hash (add_data_to_index idx fp cat paper user nowTs nowIso).2
        fp2 cat paper user).has_similar = true ∧
    (check_duplication_by_hash (add_data_to_index idx fp cat paper user nowTs nowIso).2
        fp2 cat paper user).has_duplicate = false := by
  have hmem : ("entry_" ++ paper ++ "_" ++ user ++ "_" ++ nowTs,
      ({ hash := fp, data_type := cat, paper_id := paper, user_id := user,
         timestamp := nowIso } : IndexEntry)) ∈
      (add_data_to_index idx fp cat paper user nowTs nowIso).2 :=
    mem_dictInsert_self idx _ _
  refine ⟨check_has_duplicate_of_mem hmem rfl,
    check_has_similar_of_mem hmem (Or.inr rfl),
    check_no_duplicate_of_no_hash ?_⟩
  intro kv hkv
  rcases mem_dictInsert_elim hkv with h1 | h1
  · rw [h1]
    exact fun hc => hne hc.symm
  · exact hfresh kv h1

theorem check_after_register_witness :
    (check_duplication_by_hash (add_data_to_index [] "h1" "tabular" "p1" "u1" "172" "iso").2
        "h1" "tabular" "p1" "u1").has_duplicate = true ∧
    (check_duplication_by_hash (add_data_to_index [] "h1" "tabular" "p1" "u1" "172" "iso").2
        "h2" "tabular" "p1" "u1").has_similar = true ∧
    (check_duplication_by_hash (add_data_to_index [] "h1" "tabular" "p1" "u1" "172" "iso").2
        "h2" "tabular" "p1" "u1").has_duplicate = false :=
  check_after_register [] "h1" "tabular" "p1" "u1" "172" "iso" "h2" (by decide)
    (fun kv hkv => absurd hkv (List.not_mem_nil kv))

/-- Claim C8: every entry of the fingerprint index matches its own index
record, so the per-entry re-check of the scheduler (run_deduplication
checking each entry by its stored hash while the entry is still in the
index) reports has_duplicate; consequently every run counts every
checked entry as a duplicate and sends a duplicate alert to the entry
owner. -/
theorem scheduler_self_duplicate (idx : DedupIndex) (ids : Option (List String))
    (nowIso : String) :
    (∀ eid e, (eid, e) ∈ idx →
      (check_duplication_by_hash idx e.hash e.data_type e.paper_id e.user_id).has_duplicate
        = true) ∧
    (run_deduplication idx ids nowIso).1.duplicate_found =
      (run_deduplication idx ids nowIso).1.checked_data ∧
    (∀ eid e, (eid, e) ∈ idx → schedulerKeep ids eid = true →
      ({ user_id := e.user_id, message := dedupDupMessage } : DedupAlert) ∈
        (run_deduplication idx ids nowIso).2) := by
  refine ⟨fun eid e h => check_has_duplicate_of_mem h rfl, ?_, ?_⟩
  · have h := runDedup_foldl_dup_eq idx ids idx
      ({ timestamp := nowIso, total_data := idx.length, checked_data := 0,
         duplicate_found := 0, similar_found := 0, details := [] }, [])
      (fun kv hkv => hkv)
    simpa [run_deduplication] using h
  · intro eid e h hkeep
    exact runDedup_foldl_alert_of_mem idx ids idx _ h (fun x hx => hx) hkeep

theorem scheduler_self_duplicate_witness :
    (check_duplication_by_hash [("e1", ⟨"h1", "t", "p1", "u1", "ts"⟩)]
        "h1" "t" "p1" "u1").has_duplicate = true ∧
    (run_deduplication [("e1", ⟨"h1", "t", "p1", "u1", "ts"⟩)] none "now").1.duplicate_found =
      (run_deduplication [("e1", ⟨"h1", "t", "p1", "u1", "ts"⟩)] none "now").1.checked_data ∧
    ({ user_id := "u1", message := dedupDupMessage } : DedupAlert) ∈
      (run_deduplication [("e1", ⟨"h1", "t", "p1", "u1", "ts"⟩)] none "now").2 :=
  ⟨(scheduler_self_duplicate [("e1", ⟨"h1", "t", "p1", "u1", "ts"⟩)] none "now").1
      "e1" ⟨"h1", "t", "p1", "u1", "ts"⟩ (by decide),
   (scheduler_self_duplicate [("e1", ⟨"h1", "t", "p1", "u1", "ts"⟩)] none "now").2.1,
   (scheduler_self_duplicate [("e1", ⟨"h1", "t", "p1", "u1", "ts"⟩)] none "now").2.2
      "e1" ⟨"h1", "t", "p1", "u1", "ts"⟩ (by decide) (by decide)⟩

/-- Claim C4: the temporal-index range query returns an empty list
rather than failing when the paper has no partition; otherwise it
returns, sorted ascending by timestamp, exactly the partition entries
whose key-embedded timestamp parses and lies within the inclusive
range — an entry whose timestamp key cannot be parsed is skipped rather
than aborting the query. -/
theorem range_query_spec :
    (∀ (db : TimeSeriesDB) (pid : String) (t0 t1 : Nat),
      dictLookup db.papers pid = none → get_versions_by_time_range db pid t0 t1 = []) ∧
    (∀ (db : TimeSeriesDB) (pid : String) (t0 t1 : Nat)
        (entries : List (String × String)),
      dictLookup db.papers pid = some entries →
      List.Perm (get_versions_by_time_range db pid t0 t1)
        (entries.filterMap (fun kv =>
          match parseTsKeyTimestamp kv.1 with
          | none => none
          | some ts => if t0 ≤ ts ∧ ts ≤ t1 then some (ts, kv.2) else none)) ∧
      List.Sorted fstLe (get_versions_by_time_range db pid t0 t1)) := by
  constructor
  · intro db pid t0 t1 h
    simp [get_versions_by_time_range, h]
  · intro db pid t0 t1 entries h
    simp only [get_versions_by_time_range, h]
    exact ⟨List.perm_insertionSort _ _, List.sorted_insertionSort _ _⟩

theorem range_query_spec_witness :
    get_versions_by_time_range ⟨[]⟩ "p1" 0 99999999999999999999 = [] ∧
    get_versions_by_time_range
      ⟨[("p1", [("20240105_000000_000000_3", "v3"), ("garbage", "vX"),
        ("20240101_000000_000000_1", "v1"), ("20240103_120000_500000_2", "v2"),
        ("20270101_000000_000000_4", "v4")])]⟩
      "p1" 20240101000000000000 20240106000000000000 =
      [(20240101000000000000, "v1"), (20240103120000500000, "v2"),
       (20240105000000000000, "v3")] ∧
    (List.Perm (get_versions_by_time_range
        ⟨[("p1", [("20240105_000000_000000_3", "v3"), ("garbage", "vX"),
          ("20240101_000000_000000_1", "v1"), ("20240103_120000_500000_2", "v2"),
          ("20270101_000000_000000_4", "v4")])]⟩
        "p1" 20240101000000000000 20240106000000000000)
      ([("20240105_000000_000000_3", "v3"), ("garbage", "vX"),
        ("20240101_000000_000000_1", "v1"), ("20240103_120000_500000_2", "v2"),
        ("20270101_000000_000000_4", "v4")].filterMap (fun kv =>
          match parseTsKeyTimestamp kv.1 with
          | none => none
          | some ts =>
              if 20240101000000000000 ≤ ts ∧ ts ≤ 20240106000000000000 then
                some (ts, kv.2)
              else none)) ∧
      List.Sorted fstLe (get_versions_by_time_range
        ⟨[("p1", [("20240105_000000_000000_3", "v3"), ("garbage", "vX"),
          ("20240101_000000_000000_1", "v1"), ("20240103_120000_500000_2", "v2"),
          ("20270101_000000_000000_4", "v4")])]⟩
        "p1" 20240101000000000000 20240106000000000000)) :=
  ⟨range_query_spec.1 ⟨[]⟩ "p1" 0 99999999999999999999 rfl,
   by decide,
   range_query_spec.2
     ⟨[("p1", [("20240105_000000_000000_3", "v3"), ("garbage", "vX"),
       ("20240101_000000_000000_1", "v1"), ("20240103_120000_500000_2", "v2"),
       ("20270101_000000_000000_4", "v4")])]⟩
     "p1" 20240101000000000000 20240106000000000000
     [("20240105_000000_000000_3", "v3"), ("garbage", "vX"),
      ("20240101_000000_000000_1", "v1"), ("20240103_120000_500000_2", "v2"),
      ("20270101_000000_000000_4", "v4")] rfl⟩

/-- Claim C2 counterexample: the store/load round-trip fails for a
supported payload category — a mapping payload with exactly one key
(named other than "data"). Loading immediately after storing with the
same key raises KeyError instead of returning the payload, because line
143 of four_d_data_handler.py indexes the single read dataset under the
fixed name "data". -/
theorem save_load_roundtrip_counterexample :
    load_four_d_data
      (save_four_d_data ⟨[]⟩ (.mapping [("x", [1, 2, 3])]) "d1" "u1" "p1"
        ⟨"2024-01-01T00:00:00"⟩ none "k" "ct").1
      "d1" "k" none none = .error "KeyError: data" := by decide

/-- Claim C2 amended: loading a 4D object immediately after storing it
with the same key returns the original metadata unchanged (data_id,
user_id, paper_id, timestamp, spatial coordinate) and the original
payload for single-dataset payloads and for mapping payloads with at
least two keys — the mapping comes back in sorted key order, equal to
the original as a Python dict (a permutation of its entries); but a
mapping payload with exactly one key fails to round-trip: load raises
KeyError unless the single key is named "data", in which case the value
is returned unwrapped instead of as a mapping. -/
theorem save_load_roundtrip_spec (store : FourDStore) (data_id user_id paper_id : String)
    (ts : PyDatetime) (sc : Option SpaceCoordinate) (key createTime : String) :
    (∀ l : List Int,
      load_four_d_data
        (save_four_d_data store (.single l) data_id user_id paper_id ts sc key createTime).1
        data_id key none none =
      .ok ({ data_id := data_id, user_id := user_id, paper_id := paper_id,
             timestamp := ts.iso, space_coordinate := sc,
             data_hash := sha256Hex (FourDPayload.single l).pyStr,
             create_time := createTime }, .single l)) ∧
    (∀ es : List (String × List Int), 2 ≤ es.length →
      load_four_d_data
        (save_four_d_data store (.mapping es) data_id user_id paper_id ts sc key createTime).1
        data_id key none none =
      .ok ({ data_id := data_id, user_id := user_id, paper_id := paper_id,
             timestamp := ts.iso, space_coordinate := sc,
             data_hash := sha256Hex (FourDPayload.mapping es).pyStr,
             create_time := createTime }, .mapping (es.insertionSort fstLe)) ∧
      List.Perm (es.insertionSort fstLe) es) ∧
    (∀ (k : String) (v : List Int), k ≠ "data" →
      load_four_d_data
        (save_four_d_data store (.mapping [(k, v)]) data_id user_id paper_id ts sc key
          createTime).1
        data_id key none none = .error "KeyError: data") ∧
    (∀ v : List Int,
      load_four_d_data
        (save_four_d_data store (.mapping [("data", v)]) data_id user_id paper_id ts sc key
          createTime).1
        data_id key none none =
      .ok ({ data_id := data_id, user_id := user_id, paper_id := paper_id,
             timestamp := ts.iso, space_coordinate := sc,
             data_hash := sha256Hex (FourDPayload.mapping [("data", v)]).pyStr,
             create_time := createTime }, .single v)) := by
  refine ⟨?_, ?_, ?_, ?_⟩
  · intro l
    simp [load_four_d_data, save_four_d_data, dictLookup_dictInsert_self,
      decrypt_content, encrypt_content, tsMismatch, scMismatch,
      List.insertionSort, List.orderedInsert, dictLookup]
  · intro es h
    have h1 : 1 < es.length := h
    constructor
    · simp [load_four_d_data, save_four_d_data, dictLookup_dictInsert_self,
        decrypt_content, encrypt_content, tsMismatch, scMismatch,
        List.length_insertionSort, h1]
    · exact List.perm_insertionSort _ _
  · intro k v hk
    simp [load_four_d_data, save_four_d_data, dictLookup_dictInsert_self,
      decrypt_content, encrypt_content, tsMismatch, scMismatch,
      List.insertionSort, List.orderedInsert, dictLookup, hk]
  · intro v
    simp [load_four_d_data, save_four_d_data, dictLookup_dictInsert_self,
      decrypt_content, encrypt_content, tsMismatch, scMismatch,
      List.insertionSort, List.orderedInsert, dictLookup]

theorem save_load_roundtrip_spec_witness :
    load_four_d_data
      (save_four_d_data ⟨[]⟩ (.single [1, 2, 3]) "d1" "u1" "p1"
        ⟨"2024-01-01T00:00:00"⟩ none "k" "ct").1
      "d1" "k" none none =
    .ok ({ data_id := "d1", user_id := "u1", paper_id := "p1",
           timestamp := "2024-01-01T00:00:00", space_coordinate := none,
           data_hash := sha256Hex (FourDPayload.single [1, 2, 3]).pyStr,
           create_time := "ct" }, .single [1, 2, 3]) ∧
    (load_four_d_data
      (save_four_d_data ⟨[]⟩ (.mapping [("b", [4]), ("a", [5])]) "d1" "u1" "p1"
        ⟨"2024-01-01T00:00:00"⟩ none "k" "ct").1
      "d1" "k" none none =
    .ok ({ data_id := "d1", user_id := "u1", paper_id := "p1",
           timestamp := "2024-01-01T00:00:00", space_coordinate := none,
           data_hash := sha256Hex (FourDPayload.mapping [("b", [4]), ("a", [5])]).pyStr,
           create_time := "ct" },
         .mapping ([("b", [4]), ("a", [5])].insertionSort fstLe)) ∧
      List.Perm ([("b", ([4] : List Int)), ("a", [5])].insertionSort fstLe)
        [("b", [4]), ("a", [5])]) ∧
    load_four_d_data
      (save_four_d_data ⟨[]⟩ (.mapping [("x", [9])]) "d1" "u1" "p1"
        ⟨"2024-01-01T00:00:00"⟩ none "k" "ct").1
      "d1" "k" none none = .error "KeyError: data" ∧
    load_four_d_data
      (save_four_d_data ⟨[]⟩ (.mapping [("data", [7])]) "d1" "u1" "p1"
        ⟨"2024-01-01T00:00:00"⟩ none "k" "ct").1
      "d1" "k" none none =
    .ok ({ data_id := "d1", user_id := "u1", paper_id := "p1",
           timestamp := "2024-01-01T00:00:00", space_coordinate := none,
           data_hash := sha256Hex (FourDPayload.mapping [("data", [7])]).pyStr,
           create_time := "ct" }, .single [7]) :=
  ⟨(save_load_roundtrip_spec ⟨[]⟩ "d1" "u1" "p1" ⟨"2024-01-01T00:00:00"⟩ none "k" "ct").1
      [1, 2, 3],
   (save_load_roundtrip_spec ⟨[]⟩ "d1" "u1" "p1" ⟨"2024-01-01T00:00:00"⟩ none "k" "ct").2.1
      [("b", [4]), ("a", [5])] (by decide),
   (save_load_roundtrip_spec ⟨[]⟩ "d1" "u1" "p1" ⟨"2024-01-01T00:00:00"⟩ none "k" "ct").2.2.1
      "x" [9] (by decide),
   (save_load_roundtrip_spec ⟨[]⟩ "d1" "u1" "p1" ⟨"2024-01-01T00:00:00"⟩ none "k" "ct").2.2.2
      [7]⟩

/-- Claim C1 counterexample: two tabular datasets holding the same rows
in different order — each freshly constructed, hence each carrying the
default positional RangeIndex — produce different fingerprints:
calculate_data_hash sorts a DataFrame by index and column labels
(sort_index), not by row values, so reordered rows are serialized in
their new order. -/
theorem calculate_data_hash_row_order_counterexample :
    calculate_data_hash (.frame [("name", [.str "Alice", .str "Bob"]),
      ("age", [.int 25, .int 30]), ("score", [.int 95, .int 88])]) ≠
    calculate_data_hash (.frame [("name", [.str "Bob", .str "Alice"]),
      ("age", [.int 30, .int 25]), ("score", [.int 88, .int 95])]) := by decide

/-- Claim C1 amended: calculate_data_hash is order-invariant for numeric
arrays under element permutation, for homogeneous object arrays under
element permutation, for mappings with (distinct) string keys under key
order, and for tabular data under column order (distinct column
labels); it is not invariant under tabular row order — two frames with
the same rows in different positional order hash differently, as the
counterexample shows. -/
theorem calculate_data_hash_order_invariance :
    (∀ l l' : List Int, List.Perm l l' →
      calculate_data_hash (.array (.numeric l)) =
        calculate_data_hash (.array (.numeric l'))) ∧
    (∀ l l' : List PyScalar, List.Perm l l' →
      (l.all PyScalar.isInt = true ∨ l.all PyScalar.isStr = true) →
      calculate_data_hash (.array (.object l)) =
        calculate_data_hash (.array (.object l'))) ∧
    (∀ es es' : List (String × PyValue), List.Perm es es' →
      (es.map Prod.fst).Nodup →
      calculate_data_hash (.dict es) = calculate_data_hash (.dict es')) ∧
    (∀ cols cols' : List (String × List PyScalar), List.Perm cols cols' →
      (cols.map Prod.fst).Nodup →
      calculate_data_hash (.frame cols) = calculate_data_hash (.frame cols')) := by
  refine ⟨?_, ?_, ?_, ?_⟩
  · intro l l' hp
    simp only [calculate_data_hash, canonExc, npArrayCanon]
    rw [perm_isEmpty_eq hp, insertionSort_int_eq_of_perm hp]
  · intro l l' hp hhomo
    have hsort : npSortObject l = npSortObject l' := by
      by_cases hint : l.all PyScalar.isInt = true
      · have hint2 : l'.all PyScalar.isInt = true := (perm_all_eq hp _).symm.trans hint
        simp only [npSortObject, hint, hint2, if_true]
        rw [insertionSort_int_eq_of_perm (hp.filterMap _)]
      · have hstr : l.all PyScalar.isStr = true := hhomo.resolve_left hint
        have hint2 : ¬ l'.all PyScalar.isInt = true := by
          rw [← perm_all_eq hp PyScalar.isInt]; exact hint
        have hstr2 : l'.all PyScalar.isStr = true := (perm_all_eq hp _).symm.trans hstr
        rw [Bool.not_eq_true] at hint hint2
        simp only [npSortObject, hint, hint2, hstr, hstr2, Bool.false_eq_true,
          if_false, if_true]
        rw [insertionSort_string_eq_of_perm (hp.filterMap _)]
    simp only [calculate_data_hash, canonExc, npArrayCanon]
    rw [perm_isEmpty_eq hp, hsort]
  · intro es es' hp hnodup
    simp only [calculate_data_hash, canonExc, canonEntries_eq_map]
    have hnodup2 : ((es.map (fun kv =>
        (kv.1, sha256Hex (canonFallback (canonExc kv.2))))).map Prod.fst).Nodup := by
      rw [List.map_map]
      exact hnodup
    rw [insertionSort_fstLe_eq_of_perm (hp.map _) hnodup2]
  · intro cols cols' hp hnodup
    simp only [calculate_data_hash, canonExc, frameCsv]
    rw [insertionSort_fstLe_eq_of_perm hp hnodup]

theorem calculate_data_hash_order_invariance_witness :
    calculate_data_hash (.array (.numeric [3, 1, 2])) =
      calculate_data_hash (.array (.numeric [1, 2, 3])) ∧
    calculate_data_hash (.array (.object [.str "b", .str "a"])) =
      calculate_data_hash (.array (.object [.str "a", .str "b"])) ∧
    calculate_data_hash (.dict [("b", .int 1), ("a", .int 2)]) =
      calculate_data_hash (.dict [("a", .int 2), ("b", .int 1)]) ∧
    calculate_data_hash (.frame [("name", [.str "Alice", .str "Bob"]),
      ("age", [.int 25, .int 30]), ("score", [.int 95, .int 88])]) =
    calculate_data_hash (.frame [("age", [.int 25, .int 30]),
      ("name", [.str "Alice", .str "Bob"]), ("score", [.int 95, .int 88])]) :=
  ⟨calculate_data_hash_order_invariance.1 [3, 1, 2] [1, 2, 3] (by decide),
   calculate_data_hash_order_invariance.2.1 [.str "b", .str "a"] [.str "a", .str "b"]
     (by decide) (Or.inr (by decide)),
   calculate_data_hash_order_invariance.2.2.1 [("b", .int 1), ("a", .int 2)]
     [("a", .int 2), ("b", .int 1)]
     (List.Perm.swap ("a", PyValue.int 2) ("b", PyValue.int 1) []) (by decide),
   calculate_data_hash_order_invariance.2.2.2
     [("name", [.str "Alice", .str "Bob"]), ("age", [.int 25, .int 30]),
      ("score", [.int 95, .int 88])]
     [("age", [.int 25, .int 30]), ("name", [.str "Alice", .str "Bob"]),
      ("score", [.int 95, .int 88])]
     (by decide) (by decide)⟩

end FourDPaper
